import Mathlib

/-!
# Verification of the resilient conversion pipeline (crewai-pandoc)

Shallow embedding of the conversion core of `app/main.py`:
the subprocess runner `run`, the content hashing and dedup key
(`sha256_file`, `compute_job_key`), the job cache (`already_done`,
`mark_done`), the per-file strategy engine (`convert_one` with its engine
fallback chain), the batch driver (`batch`) and CLI entry point (`main`),
and the metrics store (`AgentMetrics` of `main.py`, with Python's shallow
`dict.copy` aliasing of the nested `engine_usage` dict modelled by an
explicit heap; the `EnhancedMetrics` of `enhanced_main.py` for
`EnhancedConverter.convert_file`).

Modelling conventions:
* file bytes are `List Nat`; the disk is a partial map `String → Option (List Nat)`
  (a path is a file iff it maps to `some` bytes);
* SHA-256 digests are abstracted by a `HashEnv` of digest functions, since
  only the `"sha256:" ++ hex` framing and the key derivation structure are
  the program's own code;
* each external `pandoc` invocation is described by a `ProcOutcome`
  (normal exit with a code, timeout, or an OS-level execution error such as
  a missing binary) supplied by the environment as a stream `Nat → AttemptOutcome`,
  together with whether the expected output file exists on disk afterwards;
* wall-clock time is frozen at `epochTime` (it only enters file names and
  timing metrics, which no claim depends on);
* the per-job log is modelled by its strategy-attempt records
  (`=== CMD ... === RESULT ===` blocks appended by `try_pandoc_pdf` /
  `try_docx`); informational lines (dependency report, SKIP note) carry no
  claim-relevant data and are not materialised.
-/

/-- Job status as returned by `convert_one`: the Python strings
"OK" / "DEGRADED" / "FAIL" / "SKIP" (spec names: Success, DegradedSuccess,
Failed, Skipped). -/
inductive Status where
  | OK
  | DEGRADED
  | FAIL
  | SKIP
deriving DecidableEq, Repr

/-- Outcome of one subprocess invocation, as observed by `run`:
a normal exit with a return code and combined output, a
`subprocess.TimeoutExpired` with the partial output captured so far, or
any other exception (e.g. `FileNotFoundError` when the binary is absent). -/
inductive ProcOutcome where
  | exited (code : Nat) (output : String)
  | timedOut (output : String)
  | execError (msg : String)
deriving DecidableEq, Repr

/-- `run(cmd, timeout)` from `main.py`: returns `(ok, combined_output)` and
never raises.  `ok` is `returncode == 0`; a timeout yields
`(False, out + "\n[TIMEOUT]")`; any other exception yields
`(False, "[ERROR: ...]")`. -/
def run (p : ProcOutcome) : Bool × String :=
  match p with
  | .exited code output => (code == 0, output)
  | .timedOut output => (false, output ++ "\n[TIMEOUT]")
  | .execError msg => (false, "[ERROR: " ++ msg ++ "]")

/-- One pandoc invocation as fixed by the environment: what the subprocess
did, and whether the expected artifact file exists on disk immediately
after it (the program consults the disk again when it hashes the artifact). -/
structure AttemptOutcome where
  proc : ProcOutcome
  artifactOnDisk : Bool
deriving DecidableEq, Repr

/-- The claim-relevant content of one `=== CMD ... === RESULT ===` block
appended to the job log by `try_pandoc_pdf` / `try_docx`: which engine ran
(`none` for the DOCX fallback), whether `--template` was passed, the
verdict, and the captured output. -/
structure AttemptRec where
  engine : Option String
  usedTemplate : Bool
  ok : Bool
  output : String
deriving DecidableEq, Repr

/-- `try_pandoc_pdf` from `main.py`: runs pandoc with `--pdf-engine=engine`
(and the template when given), appends one attempt block to the log
regardless of outcome, and returns the process verdict.  The verdict is
`run(cmd)[0]` alone — the artifact file is not consulted. -/
def try_pandoc_pdf (engine : String) (usedTemplate : Bool) (a : AttemptOutcome) :
    Bool × AttemptRec :=
  let r := run a.proc
  (r.1, ⟨some engine, usedTemplate, r.1, r.2⟩)

/-- `try_docx` from `main.py`: the templateless DOCX fallback invocation. -/
def try_docx (a : AttemptOutcome) : Bool × AttemptRec :=
  let r := run a.proc
  (r.1, ⟨none, false, r.1, r.2⟩)

/-- `PDF_ENGINES` from `main.py`. -/
def PDF_ENGINES : List String := ["xelatex", "lualatex", "pdflatex"]

/-- Abstract SHA-256 hex digests: `hexB` digests raw file bytes
(`hashlib.sha256` over the streamed file), `hexS` digests the UTF-8 bytes
of a string (`sha256_bytes` applied to the concatenated cid string).
Collision-freedom is hypothesised where a theorem needs it. -/
structure HashEnv where
  hexB : List Nat → String
  hexS : String → String

/-- `sha256_file` from `main.py`: `"sha256:" ++ hexdigest` of the file
bytes; an unreadable path degrades to the `"sha256:error-<epoch>"`
sentinel instead of raising. -/
def sha256_file (H : HashEnv) (epochTime : Nat) (contents : String → Option (List Nat))
    (path : String) : String :=
  match contents path with
  | some b => "sha256:" ++ H.hexB b
  | none => "sha256:error-" ++ toString epochTime

/-- `sha256_bytes` from `main.py`. -/
def sha256_bytes (H : HashEnv) (s : String) : String :=
  "sha256:" ++ H.hexS s

/-- The absent-template sentinel `"sha256:0" * 8` used by `compute_job_key`. -/
def tplSentinel : String :=
  String.join (List.replicate 8 "sha256:0")

/-- The template cid of `compute_job_key`:
`sha256_file(template_file) if (template_file and os.path.isfile(template_file))
else "sha256:0"*8`. -/
def tplCid (H : HashEnv) (epochTime : Nat) (contents : String → Option (List Nat))
    (templateFile : Option String) : String :=
  match templateFile with
  | some t =>
    if (contents t).isSome then sha256_file H epochTime contents t
    else tplSentinel
  | none => tplSentinel

/-- `compute_job_key` from `main.py`:
`sha256(md_cid + "|" + tpl_cid)` where `tpl_cid` is the template's file
digest when the template is given and is a file, else the fixed sentinel. -/
def compute_job_key (H : HashEnv) (epochTime : Nat)
    (contents : String → Option (List Nat))
    (mdPath : String) (templateFile : Option String) : String :=
  let md_cid := sha256_file H epochTime contents mdPath
  let tpl_cid := tplCid H epochTime contents templateFile
  sha256_bytes H (md_cid ++ "|" ++ tpl_cid)

/-- The template bytes a job depends on: the bytes of the template file
when one is named, `none` when no template is given (a named template
that is not a file on disk also yields `none`). -/
def tplBytes (contents : String → Option (List Nat)) (templateFile : Option String) :
    Option (List Nat) :=
  match templateFile with
  | some t => contents t
  | none => none

/-- Split a character list on a separator character (groups between
separators, like Python `str.split(sep)`); structural so that concrete
instances reduce in the kernel. -/
def splitOnChar (sep : Char) : List Char → List (List Char)
  | [] => [[]]
  | c :: cs =>
    let r := splitOnChar sep cs
    if c = sep then [] :: r
    else
      match r with
      | [] => [[c]]
      | g :: gs => (c :: g) :: gs

/-- Join character-list groups with a separator character. -/
def joinWithChar (sep : Char) : List (List Char) → List Char
  | [] => []
  | [g] => g
  | g :: gs => g ++ sep :: joinWithChar sep gs

/-- `safe_stem` from `main.py`: basename of the path without its last
extension, with every character outside `[alnum - _ .]` replaced by `_`.
(The `os.path.splitext` special case for dot-files is not exercised by any
claim.) -/
def safe_stem (path : String) : String :=
  let base : List Char :=
    match (splitOnChar '/' path.data).reverse with
    | [] => path.data
    | b :: _ => b
  let stem : List Char :=
    match splitOnChar '.' base with
    | [] => base
    | [s] => s
    | groups => joinWithChar '.' groups.dropLast
  String.mk (stem.map fun c =>
    if c.isAlphanum || c = '-' || c = '_' || c = '.' then c else '_')

/-- The job cache directory contents: one record per dedup key
(`<job_key>.done` file holding the artifact path), most recent write
first. -/
abbrev Cache := List (String × String)

/-- `already_done` from `main.py`: return the recorded artifact path for
`job_key`, or `none` when there is no record or the recorded path is the
empty string (`return p if p else None`).  Read errors degrade to `none`. -/
def already_done (cache : Cache) (job_key : String) : Option String :=
  match cache.find? (fun kv => kv.1 == job_key) with
  | some kv => if kv.2 == "" then none else some kv.2
  | none => none

/-- `mark_done` from `main.py`: record `job_key → artifact_path`
(last write wins). -/
def mark_done (cache : Cache) (job_key : String) (artifact_path : String) : Cache :=
  (job_key, artifact_path) :: cache

/-- The scalar counters of `AgentMetrics` touched by `convert_one` through
`increment` / `set_gauge`.  (`engine_usage`, mutated through the shared
nested dict, and the wall-clock timing metrics are modelled separately by
the heap-based `AgentMetrics` below.) -/
structure AMetrics where
  files_processed_total : Nat
  files_failed_total : Nat
  files_skipped_total : Nat
  files_degraded_total : Nat
  active_jobs : Int
deriving DecidableEq, Repr

def AMetrics.incProcessed (m : AMetrics) : AMetrics :=
  { m with files_processed_total := m.files_processed_total + 1 }

def AMetrics.incFailed (m : AMetrics) : AMetrics :=
  { m with files_failed_total := m.files_failed_total + 1 }

def AMetrics.incSkipped (m : AMetrics) : AMetrics :=
  { m with files_skipped_total := m.files_skipped_total + 1 }

def AMetrics.incDegraded (m : AMetrics) : AMetrics :=
  { m with files_degraded_total := m.files_degraded_total + 1 }

/-- `METRICS.increment('active_jobs', v)`. -/
def AMetrics.incActive (m : AMetrics) (v : Int) : AMetrics :=
  { m with active_jobs := m.active_jobs + v }

/-- The environment of one `convert_one` call: its arguments, the host
state consulted by the preflight checks, the disk, the job cache, the
subprocess outcomes of successive pandoc invocations, and the metrics
store at entry. -/
structure Env where
  mdPath : String
  outputDir : String
  templateFile : Option String
  force : Bool
  /-- result of `ensure_host_directories(logs_dir, cache_dir)` -/
  ensureDirsOk : Bool
  /-- result of `validate_disk_space(output_dir)` -/
  diskSpaceOk : Bool
  /-- `shutil.which` availability of engine binaries -/
  whichOk : String → Bool
  /-- the disk: bytes of each readable file -/
  contents : String → Option (List Nat)
  /-- outcome of the i-th pandoc invocation of this job -/
  procs : Nat → AttemptOutcome
  cache : Cache
  metrics : AMetrics
  hash : HashEnv
  epochTime : Nat

/-- The epoch-stamped PDF output path `output/<epoch>.<stem>.pdf`. -/
def pdfOut (env : Env) : String :=
  env.outputDir ++ "/" ++ toString env.epochTime ++ "." ++ safe_stem env.mdPath ++ ".pdf"

/-- The epoch-stamped DOCX fallback output path. -/
def docxOut (env : Env) : String :=
  env.outputDir ++ "/" ++ toString env.epochTime ++ "." ++ safe_stem env.mdPath ++ ".docx"

/-- The dedup key of this job. -/
def jobKeyOf (env : Env) : String :=
  compute_job_key env.hash env.epochTime env.contents env.mdPath env.templateFile

/-- The dedupe/skip test of `convert_one`: unforced, a cached record whose
artifact is still a file on disk (`if prior and os.path.isfile(prior)`). -/
def skipCheck (env : Env) : Option String :=
  if env.force then none
  else
    match already_done env.cache (jobKeyOf env) with
    | some p => if (env.contents p).isSome then some p else none
    | none => none

/-- Result of the engine loop (strategies 1 and 2 of `convert_one`):
index of the next unconsumed subprocess outcome, the attempt blocks
appended to the log, and the outcome of the accepted attempt, if any.
Engines whose binary is absent are skipped without an invocation
(`if not which_ok(eng): continue`). -/
structure ChainRes where
  nextIdx : Nat
  attempts : List AttemptRec
  success : Option AttemptOutcome
deriving Repr

def engineChain (whichOk : String → Bool) (procs : Nat → AttemptOutcome)
    (usedTemplate : Bool) : List String → Nat → ChainRes
  | [], i => ⟨i, [], none⟩
  | eng :: rest, i =>
    if whichOk eng then
      let a := procs i
      let t := try_pandoc_pdf eng usedTemplate a
      if t.1 then ⟨i + 1, [t.2], some a⟩
      else
        let r := engineChain whichOk procs usedTemplate rest (i + 1)
        ⟨r.nextIdx, t.2 :: r.attempts, r.success⟩
    else engineChain whichOk procs usedTemplate rest i

/-- Result of the part of `convert_one` after the skip and disk checks:
job outcome (`Except` error = an uncaught Python exception, raised when
the artifact the process claimed to produce cannot be opened for hashing),
attempt log blocks, the `mark_done` write if one happened, and the updated
scalar metrics. -/
structure PostResult where
  outcome : Except String (Status × Option String)
  attempts : List AttemptRec
  write : Option String
  metrics : AMetrics

/-- `template_file and os.path.isfile(template_file)`: the template is
given and is a file on disk. -/
def tplPresentOf (env : Env) : Bool :=
  match env.templateFile with
  | some t => (env.contents t).isSome
  | none => false

/-- Strategy 1 of `convert_one`: the engine loop with the template, run
only when the template is present (otherwise no invocation happens and the
loop result is empty). -/
def strategy1 (env : Env) : ChainRes :=
  if tplPresentOf env then engineChain env.whichOk env.procs true PDF_ENGINES 0
  else ⟨0, [], none⟩

/-- Strategy 2 of `convert_one`: the engine loop without the template,
starting at the next unconsumed subprocess outcome. -/
def strategy2 (env : Env) (i : Nat) : ChainRes :=
  engineChain env.whichOk env.procs false PDF_ENGINES i

/-- The strategy section of `convert_one`: engines with the template
(when the template is given and is a file), then engines without it, then
the DOCX fallback.  On a process-success verdict the job key is recorded
(`mark_done`) and the artifact is opened for hashing — which raises if the
file is absent; note that `mark_done` has already happened in that case.
The metric increments mirror the source: `files_processed_total` on the
PDF paths, `files_degraded_total` on the DOCX path, `files_failed_total`
when everything is exhausted. -/
def strategyPhase (env : Env) (m : AMetrics) : PostResult :=
  let c1 : ChainRes := strategy1 env
  match c1.success with
  | some a =>
    if a.artifactOnDisk then
      ⟨.ok (.OK, some (pdfOut env)), c1.attempts, some (pdfOut env), m.incProcessed⟩
    else
      ⟨.error "FileNotFoundError", c1.attempts, some (pdfOut env), m⟩
  | none =>
    let c2 := strategy2 env c1.nextIdx
    match c2.success with
    | some a =>
      if a.artifactOnDisk then
        ⟨.ok (.OK, some (pdfOut env)), c1.attempts ++ c2.attempts,
          some (pdfOut env), m.incProcessed⟩
      else
        ⟨.error "FileNotFoundError", c1.attempts ++ c2.attempts,
          some (pdfOut env), m⟩
    | none =>
      let a3 := env.procs c2.nextIdx
      let t3 := try_docx a3
      let atts := c1.attempts ++ c2.attempts ++ [t3.2]
      if t3.1 then
        if a3.artifactOnDisk then
          ⟨.ok (.DEGRADED, some (docxOut env)), atts, some (docxOut env), m.incDegraded⟩
        else
          ⟨.error "FileNotFoundError", atts, some (docxOut env), m⟩
      else
        ⟨.ok (.FAIL, none), atts, none, m.incFailed⟩

/-- Full result of one `convert_one` call. -/
structure ConvertResult where
  outcome : Except String (Status × Option String)
  attempts : List AttemptRec
  cache : Cache
  metrics : AMetrics

/-- `convert_one` from `main.py`.  `active_jobs` is incremented on entry;
the `finally` block decrements it on every exit, normal or exceptional.
Order of the body: directory setup (failure returns `FAIL` before
anything else), dedup key, skip check, disk-space check, then the
strategy chain. -/
def convert_one (env : Env) : ConvertResult :=
  let m0 := env.metrics.incActive 1
  let r : ConvertResult :=
    if env.ensureDirsOk then
      match skipCheck env with
      | some prior =>
        ⟨.ok (.SKIP, some prior), [], env.cache, m0.incSkipped⟩
      | none =>
        if env.diskSpaceOk then
          let pr := strategyPhase env m0
          let cache' :=
            match pr.write with
            | some art => mark_done env.cache (jobKeyOf env) art
            | none => env.cache
          ⟨pr.outcome, pr.attempts, cache', pr.metrics⟩
        else
          ⟨.ok (.FAIL, none), [], env.cache, m0.incFailed⟩
    else
      ⟨.ok (.FAIL, none), [], env.cache, m0.incFailed⟩
  { r with metrics := r.metrics.incActive (-1) }

/-- The per-file outcome observed by `batch` from each worker future:
either the status tuple returned by `convert_one`, or an exception raised
from `future.result` (a crashed job or a pool timeout), which `batch`
catches and tallies as a failure. -/
inductive FileOutcome where
  | result (st : Status)
  | exc
deriving DecidableEq, Repr

/-- The per-status tally `summary` built by `batch`; exceptions are
counted into `FAIL` (`summary["FAIL"] += 1` in the `except` clause). -/
structure BatchSummary where
  ok : Nat
  degraded : Nat
  fail : Nat
  skip : Nat
deriving DecidableEq, Repr

def batchSummary : List FileOutcome → BatchSummary
  | [] => ⟨0, 0, 0, 0⟩
  | o :: rest =>
    let s := batchSummary rest
    match o with
    | .result .OK => { s with ok := s.ok + 1 }
    | .result .DEGRADED => { s with degraded := s.degraded + 1 }
    | .result .SKIP => { s with skip := s.skip + 1 }
    | .result .FAIL => { s with fail := s.fail + 1 }
    | .exc => { s with fail := s.fail + 1 }

/-- `batch` from `main.py`, viewed through the per-file outcomes it
collects: no files found returns 0 immediately; otherwise every file is
tallied and the exit code is 0 when no file failed, else 2. -/
def batch (outcomes : List FileOutcome) : Nat :=
  if outcomes.isEmpty then 0
  else if (batchSummary outcomes).fail == 0 then 0 else 2

/-- What a mode run of `main` raised, if anything: `KeyboardInterrupt` is
absorbed into exit 0, any other `Exception` into exit 1 (`SystemExit(3)`
from the PID-file check is not an `Exception` and is modelled by the
daemon branch directly). -/
inductive ModeExc where
  | keyboard
  | other
deriving DecidableEq, Repr

/-- The environment of one `main()` invocation of `main.py`. -/
structure MainEnv where
  watchFlag : Bool
  daemonFlag : Bool
  force : Bool
  /-- `shutil.which("pandoc")` found the renderer binary -/
  pandocFound : Bool
  /-- `ensure_host_directories(input, output, output/logs)` succeeded -/
  dirsOk : Bool
  templateArg : Option String
  templateIsFile : Bool
  templateValid : Bool
  /-- the PID file names a live process (daemon double start) -/
  daemonAlreadyRunning : Bool
  /-- `daemon_main` returned 0 (clean shutdown) rather than 1 -/
  daemonMainOk : Bool
  modeExc : Option ModeExc
  batchOutcomes : List FileOutcome

namespace Cli

/-- `main` from `main.py`, as an exit-code function (namespaced because a
bare `main` is reserved by Lean).  Faithful order:
conflicting `--watch`/`--daemon` flags exit 1; a missing `pandoc` binary
exits 2; failed directory setup exits 2; an existing but invalid template
without `--force` exits 2; then mode dispatch, with `KeyboardInterrupt`
absorbed to 0 and any other `Exception` to 1, the daemon double-start
`SystemExit(3)` escaping as 3, watch mode returning 0, and batch mode
returning `batch`'s code. -/
def main (e : MainEnv) : Nat :=
  if e.watchFlag && e.daemonFlag then 1
  else if !e.pandocFound then 2
  else if !e.dirsOk then 2
  else if e.templateArg.isSome && e.templateIsFile && !e.templateValid && !e.force then 2
  else
    match e.modeExc with
    | some .keyboard => 0
    | some .other => 1
    | none =>
      if e.daemonFlag then
        if e.daemonAlreadyRunning then 3
        else if e.daemonMainOk then 0 else 1
      else if e.watchFlag then 0
      else batch e.batchOutcomes

end Cli

/-! ## The `AgentMetrics` store with Python reference semantics

`AgentMetrics.get_metrics` returns `self._metrics.copy()` — a *shallow*
copy.  The scalar counter/gauge values are immutable Python numbers, so
the copy detaches them; the value under `'engine_usage'` is a nested dict
copied by reference.  `try_pandoc_pdf` / `try_docx` mutate that nested
dict in place (`METRICS._metrics['engine_usage'][engine] += 1`).  The
sharing is modelled by a heap of `EngineUsage` cells addressed by index:
a dict value that is itself a dict is a heap address. -/

/-- The nested `engine_usage` dict. -/
structure EngineUsage where
  xelatex : Nat
  lualatex : Nat
  pdflatex : Nat
  docx_fallback : Nat
deriving DecidableEq, Repr

/-- `engine_usage[engine] += 1` (call sites only ever pass the four
initialised keys, so no `KeyError` branch is needed). -/
def EngineUsage.bump (u : EngineUsage) (engine : String) : EngineUsage :=
  if engine == "xelatex" then { u with xelatex := u.xelatex + 1 }
  else if engine == "lualatex" then { u with lualatex := u.lualatex + 1 }
  else if engine == "pdflatex" then { u with pdflatex := u.pdflatex + 1 }
  else if engine == "docx_fallback" then { u with docx_fallback := u.docx_fallback + 1 }
  else u

/-- The `_metrics` dict: scalar entries by value, the `engine_usage` entry
as a heap address of the nested dict. -/
structure MetricsDict where
  files_processed_total : Nat
  files_failed_total : Nat
  files_skipped_total : Nat
  files_degraded_total : Nat
  queue_depth : Nat
  template_validation_failures_total : Nat
  last_processing_timestamp : Nat
  active_jobs : Int
  engine_usage : Nat
deriving DecidableEq, Repr

/-- The module-level `METRICS` object: its dict plus the heap holding the
nested dicts. -/
structure AgentMetrics where
  data : MetricsDict
  heap : List EngineUsage
deriving DecidableEq, Repr

/-- `AgentMetrics.get_metrics`: `self._metrics.copy()` under the lock — a
shallow copy, so the returned snapshot is the dict value itself: scalars
by value, `engine_usage` still the same heap address. -/
def AgentMetrics.get_metrics (s : AgentMetrics) : MetricsDict :=
  s.data

/-- Reading the `engine_usage` entry of a snapshot (or of the live dict)
dereferences the shared heap cell as it is *now*. -/
def readEngineUsage (heap : List EngineUsage) (d : MetricsDict) : EngineUsage :=
  heap.getD d.engine_usage ⟨0, 0, 0, 0⟩

/-- The in-place nested-dict mutation
`METRICS._metrics['engine_usage'][engine] += 1` performed by
`try_pandoc_pdf` / `try_docx` on success. -/
def AgentMetrics.bumpEngine (s : AgentMetrics) (engine : String) : AgentMetrics :=
  { s with heap := s.heap.set s.data.engine_usage ((readEngineUsage s.heap s.data).bump engine) }

/-- `METRICS.increment('files_failed_total')`: rebinds the scalar entry in
the live dict; a previously returned snapshot keeps its own number. -/
def AgentMetrics.incFailed (s : AgentMetrics) : AgentMetrics :=
  { s with data := { s.data with files_failed_total := s.data.files_failed_total + 1 } }

/-- `METRICS.set_gauge('queue_depth', v)`. -/
def AgentMetrics.setQueueDepth (s : AgentMetrics) (v : Nat) : AgentMetrics :=
  { s with data := { s.data with queue_depth := v } }

/-! ## `EnhancedMetrics` / `EnhancedConverter.convert_file` (enhanced_main.py)

Only the structure relevant to the `active_jobs` balance is modelled.
`EnhancedMetrics.increment` takes the first branch whenever the metric
name is a key of `_metrics` — which includes the dict-valued entries
`format_usage` / `engine_usage` / `error_types`, on which Python's
`dict += float` raises `TypeError` without mutating anything. -/

inductive EMetricName where
  | active_jobs
  | files_failed_total
  | files_processed_total
  | files_retried_total
  | format_usage
  | engine_usage
  | error_types
deriving DecidableEq, Repr

/-- The scalar entries of `EnhancedMetrics._metrics` used by
`convert_file`. -/
structure EMetrics where
  active_jobs : Int
  files_failed_total : Int
  files_processed_total : Int
  files_retried_total : Int
deriving DecidableEq, Repr

/-- `EnhancedMetrics.increment`: a scalar entry is incremented; a
dict-valued entry hits `self._metrics[metric] += value` on a dict and
raises `TypeError` (the metric name is in `_metrics`, so the labelled
branch is never reached). -/
def EMetrics.increment (m : EMetrics) (name : EMetricName) (v : Int) :
    Except String EMetrics :=
  match name with
  | .active_jobs => .ok { m with active_jobs := m.active_jobs + v }
  | .files_failed_total => .ok { m with files_failed_total := m.files_failed_total + v }
  | .files_processed_total => .ok { m with files_processed_total := m.files_processed_total + v }
  | .files_retried_total => .ok { m with files_retried_total := m.files_retried_total + v }
  | .format_usage => .error "TypeError"
  | .engine_usage => .error "TypeError"
  | .error_types => .error "TypeError"

/-- Environment of one `EnhancedConverter.convert_file` call.  `rest`
abstracts the health-check / retry / `_perform_conversion` section of the
`try` body (everything after the `format_usage` increment, which in fact
always raises first). -/
structure FileConvEnv where
  metrics : EMetrics
  rest : Except String (String × String × String)

/-- The `except Exception` clause of `convert_file`: count the failure,
then `increment("error_types", labels=...)` — which itself raises
`TypeError`, propagating out of the handler. -/
def convertFileExcept (m : EMetrics) (e : String) :
    EMetrics × Except String (String × Option String × String) :=
  match m.increment .files_failed_total 1 with
  | .error _ => (m, .error e)
  | .ok m1 =>
    match m1.increment .error_types 1 with
    | .error e2 => (m1, .error e2)
    | .ok m2 => (m2, .ok ("FAIL", none, e))

/-- `EnhancedConverter.convert_file`: increment `active_jobs` before the
`try`; the `try` body first hits the `format_usage` increment; any
exception goes through the `except` clause; the `finally` decrements
`active_jobs` on every path.  Returns the metrics store after the call and
the call's outcome (`.error` = exception propagated to the caller). -/
def convert_file (env : FileConvEnv) :
    EMetrics × Except String (String × Option String × String) :=
  match env.metrics.increment .active_jobs 1 with
  | .error e => (env.metrics, .error e)
  | .ok m0 =>
    let body : EMetrics × Except String (String × Option String × String) :=
      match m0.increment .format_usage 1 with
      | .error e => convertFileExcept m0 e
      | .ok m1 =>
        match env.rest with
        | .ok (st, art, lg) =>
          match m1.increment .files_processed_total 1 with
          | .error e => convertFileExcept m1 e
          | .ok m2 => (m2, .ok (st, some art, lg))
        | .error e => convertFileExcept m1 e
    match body.1.increment .active_jobs (-1) with
    | .error _ => body
    | .ok mFin => (mFin, body.2)

/-! ## General lemmas about the embedding -/

/-- Left cancellation for string append. -/
theorem string_append_cancel_left {a x y : String} (h : a ++ x = a ++ y) : x = y := by
  apply String.ext
  have h2 : (a ++ x).data = (a ++ y).data := by rw [h]
  simp only [String.data_append] at h2
  exact List.append_cancel_left h2

/-- Right cancellation for string append. -/
theorem string_append_cancel_right {x y s : String} (h : x ++ s = y ++ s) : x = y := by
  apply String.ext
  have h2 : (x ++ s).data = (y ++ s).data := by rw [h]
  simp only [String.data_append] at h2
  exact List.append_cancel_right h2

/-- The epoch-stamped PDF output path is never the empty string. -/
theorem pdfOut_ne_empty (env : Env) : pdfOut env ≠ "" := by
  intro h
  have h2 : (pdfOut env).length = 0 := by rw [h]; rfl
  unfold pdfOut at h2
  have h4 : (".pdf" : String).length = 4 := rfl
  simp only [String.length_append, h4] at h2
  omega

/-- The epoch-stamped DOCX output path is never the empty string. -/
theorem docxOut_ne_empty (env : Env) : docxOut env ≠ "" := by
  intro h
  have h2 : (docxOut env).length = 0 := by rw [h]; rfl
  unfold docxOut at h2
  have h5 : (".docx" : String).length = 5 := rfl
  simp only [String.length_append, h5] at h2
  omega

/-- The strategy section does not touch the `active_jobs` gauge. -/
theorem strategyPhase_active (env : Env) (m : AMetrics) :
    (strategyPhase env m).metrics.active_jobs = m.active_jobs := by
  unfold strategyPhase
  dsimp only
  repeat' split
  all_goals rfl

/-- Characterization of the strategy section outcomes: a full success is
always the PDF path with the PDF artifact recorded, a degraded success is
always the DOCX path with the DOCX artifact recorded, the strategy
section never produces a SKIP, and a FAIL carries no artifact. -/
theorem strategyPhase_char (env : Env) (m : AMetrics) :
    (∀ a, (strategyPhase env m).outcome = .ok (.OK, a) →
      a = some (pdfOut env) ∧ (strategyPhase env m).write = some (pdfOut env)) ∧
    (∀ a, (strategyPhase env m).outcome = .ok (.DEGRADED, a) →
      a = some (docxOut env) ∧ (strategyPhase env m).write = some (docxOut env)) ∧
    (∀ a, (strategyPhase env m).outcome ≠ .ok (.SKIP, a)) ∧
    (∀ a, (strategyPhase env m).outcome = .ok (.FAIL, a) → a = none) := by
  unfold strategyPhase
  dsimp only
  repeat' split
  all_goals simp

/-- The strategy section never reads the job cache. -/
theorem strategyPhase_cache_irrel (env : Env) (c : Cache) (m : AMetrics) :
    strategyPhase { env with cache := c } m = strategyPhase env m := rfl

/-- Outcome classification of `convert_one`: the full-success status OK is
always returned with the PDF artifact (with or without the template), and
the degraded status only with the DOCX fallback artifact. -/
theorem convert_one_classify (env : Env) :
    (∀ a, (convert_one env).outcome = .ok (.OK, a) → a = some (pdfOut env)) ∧
    (∀ a, (convert_one env).outcome = .ok (.DEGRADED, a) → a = some (docxOut env)) := by
  have hc := strategyPhase_char env (env.metrics.incActive 1)
  unfold convert_one
  dsimp only
  repeat' split
  all_goals
    first
      | exact ⟨fun a h => (hc.1 a h).1, fun a h => (hc.2.1 a h).1⟩
      | simp

/-- A successful `convert_one` (OK or DEGRADED) has recorded its artifact
under the job key, the artifact is the epoch-stamped PDF or DOCX path,
and the run passed the directory check. -/
theorem convert_one_success_cache (env : Env) (st : Status) (a : String)
    (hst : st = .OK ∨ st = .DEGRADED)
    (h : (convert_one env).outcome = .ok (st, some a)) :
    (convert_one env).cache = mark_done env.cache (jobKeyOf env) a ∧
    (a = pdfOut env ∨ a = docxOut env) ∧ env.ensureDirsOk = true := by
  have hc := strategyPhase_char env (env.metrics.incActive 1)
  unfold convert_one at h ⊢
  dsimp only at h ⊢
  split at h
  case isTrue hdirs =>
    split at h
    case h_1 prior hskip =>
      exfalso
      rcases hst with h1 | h1 <;> subst h1 <;> simp at h
    case h_2 hskip =>
      split at h
      case isTrue hdisk =>
        refine ⟨?_, ?_, hdirs⟩
        · simp only [hdirs, hskip, hdisk, if_true]
          rcases hst with h1 | h1 <;> subst h1
          · have hw := hc.1 (some a) h
            have ha : a = pdfOut env := by simpa using hw.1
            subst ha
            simp [hw.2]
          · have hw := hc.2.1 (some a) h
            have ha : a = docxOut env := by simpa using hw.1
            subst ha
            simp [hw.2]
        · rcases hst with h1 | h1 <;> subst h1
          · exact Or.inl (by simpa using (hc.1 (some a) h).1)
          · exact Or.inr (by simpa using (hc.2.1 (some a) h).1)
      case isFalse hdisk =>
        exfalso
        rcases hst with h1 | h1 <;> subst h1 <;> simp at h
  case isFalse hdirs =>
    exfalso
    rcases hst with h1 | h1 <;> subst h1 <;> simp at h

/-- The template cid is determined by the template bytes alone. -/
theorem tplCid_congr (H : HashEnv) (e1 e2 : Nat)
    (c1 c2 : String → Option (List Nat)) (t1 t2 : Option String)
    (htpl : tplBytes c1 t1 = tplBytes c2 t2) :
    tplCid H e1 c1 t1 = tplCid H e2 c2 t2 := by
  unfold tplBytes at htpl
  unfold tplCid sha256_file
  cases t1 with
  | none =>
    cases t2 with
    | none => rfl
    | some t =>
      simp only at htpl
      dsimp only
      have hn : c2 t = none := htpl.symm
      simp [hn]
  | some s =>
    cases t2 with
    | none =>
      simp only at htpl
      dsimp only
      simp [htpl]
    | some t =>
      simp only at htpl
      dsimp only
      rw [← htpl]
      cases hc : c1 s <;> simp [hc]

theorem c3_determinism (H : HashEnv) (e1 e2 : Nat)
    (c1 c2 : String → Option (List Nat)) (md1 md2 : String)
    (t1 t2 : Option String) (b : List Nat)
    (h1 : c1 md1 = some b) (h2 : c2 md2 = some b)
    (htpl : tplBytes c1 t1 = tplBytes c2 t2) :
    compute_job_key H e1 c1 md1 t1 = compute_job_key H e2 c2 md2 t2 := by
  unfold compute_job_key
  dsimp only
  rw [tplCid_congr H e1 e2 c1 c2 t1 t2 htpl]
  unfold sha256_file
  rw [h1, h2]

theorem c3_source_sensitive (H : HashEnv) (e1 e2 : Nat)
    (c1 c2 : String → Option (List Nat)) (md1 md2 : String)
    (t1 t2 : Option String) (b b' : List Nat)
    (h1 : c1 md1 = some b) (h2 : c2 md2 = some b')
    (hB : H.hexB b ≠ H.hexB b') (hS : Function.Injective H.hexS)
    (htpl : tplBytes c1 t1 = tplBytes c2 t2) :
    compute_job_key H e1 c1 md1 t1 ≠ compute_job_key H e2 c2 md2 t2 := by
  intro hkey
  unfold compute_job_key sha256_bytes at hkey
  dsimp only at hkey
  have hargs := hS (string_append_cancel_left hkey)
  rw [tplCid_congr H e1 e2 c1 c2 t1 t2 htpl] at hargs
  have hmid := string_append_cancel_right (string_append_cancel_right hargs)
  unfold sha256_file at hmid
  rw [h1, h2] at hmid
  exact hB (string_append_cancel_left hmid)

theorem c3_template_sensitive (H : HashEnv) (e1 e2 : Nat)
    (c1 c2 : String → Option (List Nat)) (md1 md2 : String)
    (t1 t2 : String) (b bt bt' : List Nat)
    (h1 : c1 md1 = some b) (h2 : c2 md2 = some b)
    (ht1 : c1 t1 = some bt) (ht2 : c2 t2 = some bt')
    (hB : H.hexB bt ≠ H.hexB bt') (hS : Function.Injective H.hexS) :
    compute_job_key H e1 c1 md1 (some t1) ≠ compute_job_key H e2 c2 md2 (some t2) := by
  intro hkey
  unfold compute_job_key sha256_bytes at hkey
  dsimp only at hkey
  have hargs := hS (string_append_cancel_left hkey)
  have hmd : sha256_file H e1 c1 md1 = sha256_file H e2 c2 md2 := by
    unfold sha256_file
    rw [h1, h2]
  rw [hmd] at hargs
  have hT : tplCid H e1 c1 (some t1) = tplCid H e2 c2 (some t2) := by
    have hp : sha256_file H e2 c2 md2 ++ "|" ++ tplCid H e1 c1 (some t1)
        = (sha256_file H e2 c2 md2 ++ "|") ++ tplCid H e1 c1 (some t1) := by
      rw [String.append_assoc]
    have hq : sha256_file H e2 c2 md2 ++ "|" ++ tplCid H e2 c2 (some t2)
        = (sha256_file H e2 c2 md2 ++ "|") ++ tplCid H e2 c2 (some t2) := by
      rw [String.append_assoc]
    rw [hp, hq] at hargs
    exact string_append_cancel_left hargs
  unfold tplCid sha256_file at hT
  dsimp only at hT
  rw [ht1, ht2] at hT
  simp only [Option.isSome_some, if_true] at hT
  exact hB (string_append_cancel_left hT)

/-- If every subprocess invocation fails, the engine loop never accepts. -/
theorem engineChain_success_none (whichOk : String → Bool) (procs : Nat → AttemptOutcome)
    (tpl : Bool) (engines : List String)
    (hall : ∀ j, (run (procs j).proc).1 = false) :
    ∀ i, (engineChain whichOk procs tpl engines i).success = none := by
  induction engines with
  | nil => intro i; rfl
  | cons eng rest ih =>
    intro i
    unfold engineChain
    split
    · simp only [try_pandoc_pdf]
      rw [hall i]
      simp only [Bool.false_eq_true, if_false]
      exact ih (i + 1)
    · exact ih i

/-- If every subprocess invocation fails, the strategy section classifies
the job as FAIL (no exception). -/
theorem strategyPhase_allfail (env : Env) (m : AMetrics)
    (hall : ∀ j, (run (env.procs j).proc).1 = false) :
    (strategyPhase env m).outcome = .ok (.FAIL, none) := by
  have h1 : (strategy1 env).success = none := by
    unfold strategy1
    split
    · exact engineChain_success_none _ _ _ _ hall 0
    · rfl
  have h2 : ∀ i, (strategy2 env i).success = none := fun i =>
    engineChain_success_none _ _ _ _ hall i
  unfold strategyPhase
  dsimp only
  rw [h1, h2]
  simp only [try_docx]
  rw [hall ((strategy2 env (strategy1 env).nextIdx).nextIdx)]
  rfl

/-- A timed-out attempt appends a failed block and the loop moves on. -/
theorem engineChain_timeout_step (whichOk : String → Bool) (procs : Nat → AttemptOutcome)
    (tpl : Bool) (eng : String) (rest : List String) (i : Nat) (o : String) (b : Bool)
    (heng : whichOk eng = true) (hto : procs i = ⟨.timedOut o, b⟩) :
    engineChain whichOk procs tpl (eng :: rest) i =
      ⟨(engineChain whichOk procs tpl rest (i + 1)).nextIdx,
       ⟨some eng, tpl, false, o ++ "\n[TIMEOUT]"⟩
         :: (engineChain whichOk procs tpl rest (i + 1)).attempts,
       (engineChain whichOk procs tpl rest (i + 1)).success⟩ := by
  conv_lhs => rw [engineChain]
  rw [heng]
  simp [hto, try_pandoc_pdf, run]

/-- A `convert_one` run that reaches the failed disk-space check reports
FAIL with no strategy attempts. -/
theorem convert_one_no_disk (env : Env)
    (hdirs : env.ensureDirsOk = true) (hskip : skipCheck env = none)
    (hdisk : env.diskSpaceOk = false) :
    (convert_one env).outcome = .ok (.FAIL, none) ∧
    (convert_one env).attempts = [] := by
  unfold convert_one
  dsimp only
  simp [hdirs, hskip, hdisk]

/-- C4: re-running a successfully converted job unforced, with the
recorded artifact still on disk, short-circuits to SKIP with the same
artifact path the first run recorded, and performs no renderer invocation
(no attempt blocks). -/
theorem claimC4 (env env2 : Env) (st : Status) (a : String)
    (hst : st = .OK ∨ st = .DEGRADED)
    (h1 : (convert_one env).outcome = .ok (st, some a))
    (h2 : env2.cache = (convert_one env).cache)
    (hmd : env2.mdPath = env.mdPath) (htpl : env2.templateFile = env.templateFile)
    (hcts : env2.contents = env.contents) (hh : env2.hash = env.hash)
    (hep : env2.epochTime = env.epochTime)
    (hforce : env2.force = false)
    (hdirs2 : env2.ensureDirsOk = true)
    (hart : (env2.contents a).isSome = true) :
    (convert_one env2).outcome = .ok (.SKIP, some a) ∧
    (convert_one env2).attempts = [] := by
  have hkey : jobKeyOf env2 = jobKeyOf env := by
    unfold jobKeyOf
    rw [hmd, htpl, hcts, hh, hep]
  obtain ⟨hcache, hart2, _⟩ := convert_one_success_cache env st a hst h1
  have hne : (a == "") = false := by
    apply beq_eq_false_iff_ne.mpr
    rcases hart2 with h3 | h3 <;> subst h3
    · exact pdfOut_ne_empty env
    · exact docxOut_ne_empty env
  have hskip : skipCheck env2 = some a := by
    unfold skipCheck
    rw [hforce, h2, hcache, hkey]
    unfold already_done mark_done
    simp [List.find?_cons, hne, hart]
  unfold convert_one
  dsimp only
  simp [hdirs2, hskip]

/-- C5: a cache record whose artifact no longer exists on disk behaves
exactly as a cache miss: the unforced run proceeds as if the cache were
empty (same outcome, same attempts, same metrics — the strategy chain
runs) and in particular never returns SKIP, and no error is raised by the
lookup. -/
theorem claimC5 (env : Env) (p : String)
    (hforce : env.force = false)
    (hprior : already_done env.cache (jobKeyOf env) = some p)
    (hmiss : (env.contents p).isSome = false) :
    (convert_one env).outcome = (convert_one { env with cache := [] }).outcome ∧
    (convert_one env).attempts = (convert_one { env with cache := [] }).attempts ∧
    (convert_one env).metrics = (convert_one { env with cache := [] }).metrics ∧
    ∀ a, (convert_one env).outcome ≠ .ok (.SKIP, a) := by
  have hchar := strategyPhase_char env (env.metrics.incActive 1)
  have hskip1 : skipCheck env = none := by
    unfold skipCheck
    rw [hforce, hprior]
    simp [hmiss]
  have hskip2 : skipCheck { env with cache := [] } = none := by
    unfold skipCheck
    have hf : ({ env with cache := [] } : Env).force = false := hforce
    rw [hf]
    simp [already_done]
  unfold convert_one
  dsimp only
  simp only [hskip1, hskip2, strategyPhase_cache_irrel]
  split
  · split
    · exact ⟨rfl, rfl, rfl, fun a => hchar.2.2.1 a⟩
    · exact ⟨rfl, rfl, rfl, by simp⟩
  · exact ⟨rfl, rfl, rfl, by simp⟩

/-! ## Concrete environments used by counterexamples and witnesses -/

/-- A concrete digest environment: byte digests via base-256 value (plainly
collision-free on the small inputs used), string digests via the identity
(injective). -/
def baseHash : HashEnv :=
  ⟨fun b => toString (b.foldl (fun acc n => acc * 256 + n) 0), fun s => s⟩

/-- A concrete job environment: `doc.md` with no template, no TeX engine
installed, a DOCX-producing pandoc, an empty cache. -/
def baseEnv : Env :=
  { mdPath := "doc.md"
    outputDir := "out"
    templateFile := none
    force := false
    ensureDirsOk := true
    diskSpaceOk := true
    whichOk := fun _ => false
    contents := fun p => if p == "doc.md" then some [1] else none
    procs := fun _ => ⟨.exited 0 "made docx", true⟩
    cache := []
    metrics := ⟨0, 0, 0, 0, 0⟩
    hash := baseHash
    epochTime := 0 }

/-! ## C1 — degraded status on template-dropping fallback -/

/-- Template present, only xelatex installed, the template attempt fails
with a diagnostic, and the templateless PDF attempt succeeds. -/
def envC1 : Env :=
  { baseEnv with
    templateFile := some "t.tex"
    contents := fun p =>
      if p == "doc.md" then some [1] else if p == "t.tex" then some [2] else none
    whichOk := fun s => s == "xelatex"
    procs := fun i =>
      if i == 0 then ⟨.exited 43 "Undefined control sequence", false⟩
      else ⟨.exited 0 "fine", true⟩ }

/-- C1 counterexample: the first-choice strategy (engine with template,
PDF) fails and the later strategy that drops the template but still
produces the requested PDF succeeds — and `convert_one` returns the
full-success status OK, not DEGRADED. -/
theorem claimC1_counterexample :
    (convert_one envC1).attempts =
      [⟨some "xelatex", true, false, "Undefined control sequence"⟩,
       ⟨some "xelatex", false, true, "fine"⟩] ∧
    (convert_one envC1).outcome = .ok (.OK, some "out/0.doc.pdf") ∧
    Status.OK ≠ Status.DEGRADED :=
  ⟨rfl, rfl, by decide⟩

/-- C1 (amended): a successful PDF strategy — with or without the
template — always yields the full-success status OK with the PDF
artifact; the degraded status is returned exactly by the DOCX
format-downgrade fallback, never by the template-dropping PDF fallback. -/
theorem claimC1 : ∀ env : Env,
    (∀ a, (convert_one env).outcome = .ok (.OK, a) → a = some (pdfOut env)) ∧
    (∀ a, (convert_one env).outcome = .ok (.DEGRADED, a) → a = some (docxOut env)) :=
  convert_one_classify

/-- C1 witness: concrete DEGRADED run (DOCX fallback) instantiating the
amended claim. -/
theorem claimC1_witness :
    (convert_one baseEnv).outcome = .ok (.DEGRADED, some (docxOut baseEnv)) ∧
    some (docxOut baseEnv) = some (docxOut baseEnv) :=
  ⟨rfl, (claimC1 baseEnv).2 (some (docxOut baseEnv)) rfl⟩

/-! ## C2 — preflight gate -/

/-- A host with no renderer binary at all: every pandoc invocation fails
with an OS-level error. -/
def envC2 : Env :=
  { baseEnv with procs := fun _ => ⟨.execError "No such file or directory: pandoc", false⟩ }

/-- C2 counterexample: with the renderer binary absent the job does NOT
fail with zero strategy-attempt entries — the DOCX fallback is still
invoked and logged (one attempt block), and only then does the job fail. -/
theorem claimC2_counterexample :
    (envC2.procs 0).proc = .execError "No such file or directory: pandoc" ∧
    (convert_one envC2).outcome = .ok (.FAIL, none) ∧
    (convert_one envC2).attempts =
      [⟨none, false, false, "[ERROR: No such file or directory: pandoc]"⟩] :=
  ⟨rfl, rfl, rfl⟩

/-- C2 (amended): the failed disk-space check does transition the job
directly to FAIL with zero strategy-attempt entries; the renderer binary,
however, is checked only once at process startup — `main` exits with
code 2 before any job runs — and a job executed with the renderer absent
still attempts (and logs) its fallback chain. -/
theorem claimC2 :
    (∀ env : Env, env.ensureDirsOk = true → skipCheck env = none →
      env.diskSpaceOk = false →
      (convert_one env).outcome = .ok (.FAIL, none) ∧
      (convert_one env).attempts = []) ∧
    (∀ e : MainEnv, (e.watchFlag && e.daemonFlag) = false → e.pandocFound = false →
      Cli.main e = 2) := by
  constructor
  · exact convert_one_no_disk
  · intro e hconf hp
    simp [Cli.main, hconf, hp]

/-- Disk-space check failing on an otherwise healthy host. -/
def envC2w : Env := { baseEnv with diskSpaceOk := false }

/-- A `main` invocation in batch mode on a host without pandoc. -/
def mainEnvC2 : MainEnv :=
  { watchFlag := false, daemonFlag := false, force := false
    pandocFound := false, dirsOk := true
    templateArg := none, templateIsFile := false, templateValid := true
    daemonAlreadyRunning := false, daemonMainOk := true
    modeExc := none, batchOutcomes := [] }

/-- C2 witness. -/
theorem claimC2_witness :
    ((convert_one envC2w).outcome = .ok (.FAIL, none) ∧
      (convert_one envC2w).attempts = []) ∧
    Cli.main mainEnvC2 = 2 :=
  ⟨claimC2.1 envC2w rfl rfl rfl, claimC2.2 mainEnvC2 rfl rfl⟩

/-! ## C3 — dedup key determinism and sensitivity -/

/-- C3: the dedup key is a function of the source and template bytes
alone (computing twice, from any paths and at any times, yields the same
key); under collision-freedom of the underlying SHA-256 digests, changing
the source bytes or the template bytes changes the key; an absent
template is mapped to the fixed `"sha256:0"*8` sentinel. -/
theorem claimC3 :
    (∀ (H : HashEnv) (e1 e2 : Nat) (c1 c2 : String → Option (List Nat))
        (md1 md2 : String) (t1 t2 : Option String) (b : List Nat),
      c1 md1 = some b → c2 md2 = some b → tplBytes c1 t1 = tplBytes c2 t2 →
      compute_job_key H e1 c1 md1 t1 = compute_job_key H e2 c2 md2 t2) ∧
    (∀ (H : HashEnv) (e1 e2 : Nat) (c1 c2 : String → Option (List Nat))
        (md1 md2 : String) (t1 t2 : Option String) (b b' : List Nat),
      c1 md1 = some b → c2 md2 = some b' →
      H.hexB b ≠ H.hexB b' → Function.Injective H.hexS →
      tplBytes c1 t1 = tplBytes c2 t2 →
      compute_job_key H e1 c1 md1 t1 ≠ compute_job_key H e2 c2 md2 t2) ∧
    (∀ (H : HashEnv) (e1 e2 : Nat) (c1 c2 : String → Option (List Nat))
        (md1 md2 : String) (t1 t2 : String) (b bt bt' : List Nat),
      c1 md1 = some b → c2 md2 = some b →
      c1 t1 = some bt → c2 t2 = some bt' →
      H.hexB bt ≠ H.hexB bt' → Function.Injective H.hexS →
      compute_job_key H e1 c1 md1 (some t1) ≠ compute_job_key H e2 c2 md2 (some t2)) ∧
    (∀ (H : HashEnv) (e : Nat) (c : String → Option (List Nat)) (md : String),
      compute_job_key H e c md none
        = sha256_bytes H (sha256_file H e c md ++ "|" ++ tplSentinel)) ∧
    tplSentinel = "sha256:0sha256:0sha256:0sha256:0sha256:0sha256:0sha256:0sha256:0" :=
  ⟨c3_determinism, c3_source_sensitive, c3_template_sensitive,
   fun _ _ _ _ => rfl, rfl⟩

/-- Disk with `a.md = [1]` and template `t.tex = [7]`. -/
def ctsA : String → Option (List Nat) := fun p =>
  if p == "a.md" then some [1] else if p == "t.tex" then some [7] else none

/-- Same bytes as `ctsA` under different paths. -/
def ctsB : String → Option (List Nat) := fun p =>
  if p == "b.md" then some [1] else if p == "tpl2.tex" then some [7] else none

/-- One source byte changed relative to `ctsA`. -/
def ctsC : String → Option (List Nat) := fun p =>
  if p == "a.md" then some [2] else if p == "t.tex" then some [7] else none

/-- One template byte changed relative to `ctsA`. -/
def ctsD : String → Option (List Nat) := fun p =>
  if p == "a.md" then some [1] else if p == "t.tex" then some [8] else none

/-- C3 witness: the four parts of the claim at concrete inputs. -/
theorem claimC3_witness :
    compute_job_key baseHash 5 ctsA "a.md" (some "t.tex")
      = compute_job_key baseHash 9 ctsB "b.md" (some "tpl2.tex") ∧
    compute_job_key baseHash 5 ctsA "a.md" (some "t.tex")
      ≠ compute_job_key baseHash 5 ctsC "a.md" (some "t.tex") ∧
    compute_job_key baseHash 5 ctsA "a.md" (some "t.tex")
      ≠ compute_job_key baseHash 5 ctsD "a.md" (some "t.tex") ∧
    compute_job_key baseHash 5 ctsA "a.md" none
      = sha256_bytes baseHash (sha256_file baseHash 5 ctsA "a.md" ++ "|" ++ tplSentinel) :=
  ⟨claimC3.1 baseHash 5 9 ctsA ctsB "a.md" "b.md" (some "t.tex") (some "tpl2.tex") [1]
      rfl rfl rfl,
   claimC3.2.1 baseHash 5 5 ctsA ctsC "a.md" "a.md" (some "t.tex") (some "t.tex") [1] [2]
      rfl rfl (by decide) (fun x y h => h) rfl,
   claimC3.2.2.1 baseHash 5 5 ctsA ctsD "a.md" "a.md" "t.tex" "t.tex" [1] [7] [8]
      rfl rfl rfl rfl (by decide) (fun x y h => h),
   claimC3.2.2.2.1 baseHash 5 ctsA "a.md"⟩

/-! ## C4 / C5 witnesses -/

/-- First run of the C4 scenario: DOCX fallback succeeds; the disk also
holds the artifact path the run will record (as observed at the second
run's cache check). -/
def envC4 : Env :=
  { baseEnv with
    contents := fun p =>
      if p == "doc.md" then some [1]
      else if p == "out/0.doc.docx" then some [9] else none }

/-- Second run of the C4 scenario: same job, cache as left by the first
run. -/
def envC4b : Env := { envC4 with cache := (convert_one envC4).cache, force := false }

/-- C4 witness: the concrete second run returns SKIP with the recorded
artifact and no attempts. -/
theorem claimC4_witness :
    (convert_one envC4b).outcome = .ok (.SKIP, some "out/0.doc.docx") ∧
    (convert_one envC4b).attempts = [] :=
  claimC4 envC4 envC4b .DEGRADED "out/0.doc.docx" (Or.inr rfl)
    rfl rfl rfl rfl rfl rfl rfl rfl rfl rfl

/-- A cache holding this job's key, pointing at an artifact that is not on
disk. -/
def envC5 : Env := { baseEnv with cache := [(jobKeyOf baseEnv, "gone.pdf")] }

/-- C5 witness: the dangling entry is treated as a miss (same outcome as
the empty cache) and the stale artifact is never returned as a skip. -/
theorem claimC5_witness :
    (convert_one envC5).outcome = (convert_one { envC5 with cache := [] }).outcome ∧
    (convert_one envC5).outcome ≠ .ok (.SKIP, some "gone.pdf") :=
  ⟨(claimC5 envC5 "gone.pdf" rfl rfl rfl).1,
   (claimC5 envC5 "gone.pdf" rfl rfl rfl).2.2.2 (some "gone.pdf")⟩

/-! ## C6 — exit codes -/

/-- Batch mode with healthy pandoc, valid setup, but directory creation
failing. -/
def mainEnvC6 : MainEnv :=
  { watchFlag := false, daemonFlag := false, force := false
    pandocFound := true, dirsOk := false
    templateArg := none, templateIsFile := false, templateValid := true
    daemonAlreadyRunning := false, daemonMainOk := true
    modeExc := none, batchOutcomes := [] }

/-- C6 counterexample: a setup-level failure (uncreatable/unwritable
directories) makes `main` exit with code 2, not the claimed 1. -/
theorem claimC6_counterexample :
    Cli.main mainEnvC6 = 2 ∧ (2 : Nat) ≠ 1 :=
  ⟨rfl, by decide⟩

/-- C6 (amended): exit code 0 when no work was found or every tallied file
succeeded, 2 when at least one file failed (every file is tallied — a
single failure never aborts the batch), 3 when the daemon found a live
prior instance, 1 for conflicting mode flags or an unexpected exception;
but the setup-level failures (missing renderer binary, uncreatable or
unwritable directories) exit with code 2, not 1. -/
theorem claimC6 :
    batch [] = 0 ∧
    (∀ outs, (batchSummary outs).fail = 0 → batch outs = 0) ∧
    (∀ outs, (batchSummary outs).fail ≠ 0 → batch outs = 2) ∧
    (∀ outs, (batchSummary outs).ok + (batchSummary outs).degraded +
      (batchSummary outs).fail + (batchSummary outs).skip = outs.length) ∧
    (∀ e : MainEnv, e.watchFlag = true → e.daemonFlag = true → Cli.main e = 1) ∧
    (∀ e : MainEnv, (e.watchFlag && e.daemonFlag) = false → e.pandocFound = true →
      e.dirsOk = false → Cli.main e = 2) ∧
    (∀ e : MainEnv, (e.watchFlag && e.daemonFlag) = false → e.pandocFound = false →
      Cli.main e = 2) ∧
    (∀ e : MainEnv, (e.watchFlag && e.daemonFlag) = false → e.pandocFound = true →
      e.dirsOk = true → e.templateArg = none → e.modeExc = none →
      e.daemonFlag = true → e.daemonAlreadyRunning = true → Cli.main e = 3) ∧
    (∀ e : MainEnv, (e.watchFlag && e.daemonFlag) = false → e.pandocFound = true →
      e.dirsOk = true → e.templateArg = none → e.modeExc = some .other →
      Cli.main e = 1) := by
  refine ⟨rfl, ?_, ?_, ?_, ?_, ?_, ?_, ?_, ?_⟩
  · intro outs h
    simp [batch, h]
  · intro outs h
    cases outs with
    | nil => simp [batchSummary] at h
    | cons o rest => simp [batch, h]
  · intro outs
    induction outs with
    | nil => rfl
    | cons o rest ih =>
      cases o with
      | result st => cases st <;> simp [batchSummary] <;> omega
      | exc => simp [batchSummary]; omega
  · intro e hw hd
    simp [Cli.main, hw, hd]
  · intro e hconf hp hdir
    simp [Cli.main, hconf, hp, hdir]
  · intro e hconf hp
    simp [Cli.main, hconf, hp]
  · intro e hconf hp hdir htpl hexc hdmn hrun
    have hw : e.watchFlag = false := by
      rw [hdmn] at hconf
      simpa using hconf
    simp [Cli.main, hconf, hp, hdir, htpl, hexc, hdmn, hrun, hw]
  · intro e hconf hp hdir htpl hexc
    simp [Cli.main, hconf, hp, hdir, htpl, hexc]

/-- A batch whose files all succeeded or were skipped. -/
def outsAllOk : List FileOutcome := [.result .OK, .result .SKIP, .result .DEGRADED]

/-- A batch with one failure among successes. -/
def outsOneFail : List FileOutcome := [.result .OK, .exc, .result .OK]

/-- Daemon double-start environment. -/
def mainEnvC6d : MainEnv :=
  { watchFlag := false, daemonFlag := true, force := false
    pandocFound := true, dirsOk := true
    templateArg := none, templateIsFile := false, templateValid := true
    daemonAlreadyRunning := true, daemonMainOk := true
    modeExc := none, batchOutcomes := [] }

/-- C6 witness. -/
theorem claimC6_witness :
    batch outsAllOk = 0 ∧ batch outsOneFail = 2 ∧
    (batchSummary outsOneFail).ok + (batchSummary outsOneFail).degraded +
      (batchSummary outsOneFail).fail + (batchSummary outsOneFail).skip
      = outsOneFail.length ∧
    Cli.main mainEnvC6d = 3 :=
  ⟨claimC6.2.1 outsAllOk rfl,
   claimC6.2.2.1 outsOneFail (by decide),
   claimC6.2.2.2.1 outsOneFail,
   claimC6.2.2.2.2.2.2.2.1 mainEnvC6d rfl rfl rfl rfl rfl rfl rfl⟩

/-! ## C7 — acceptance test of a strategy attempt -/

/-- No template, only xelatex, pandoc reports success but the expected
artifact file is not on disk. -/
def envC7 : Env :=
  { baseEnv with
    whichOk := fun s => s == "xelatex"
    procs := fun _ => ⟨.exited 0 "made it", false⟩ }

/-- C7 counterexample: an attempt whose process reported success is
accepted — the chain stops after one attempt and the cache record is
written — even though the expected artifact is NOT present on disk (the
job then raises while hashing the artifact).  Acceptance is therefore not
"process success AND artifact present". -/
theorem claimC7_counterexample :
    (envC7.procs 0).artifactOnDisk = false ∧
    (convert_one envC7).attempts = [⟨some "xelatex", false, true, "made it"⟩] ∧
    (convert_one envC7).cache = [(jobKeyOf envC7, "out/0.doc.pdf")] ∧
    (convert_one envC7).outcome = .error "FileNotFoundError" :=
  ⟨rfl, rfl, rfl, rfl⟩

/-- C7 (amended): an attempt is accepted exactly when the renderer
process exits with code 0 — the artifact's presence on disk is not part
of the acceptance test in either direction: a zero exit is accepted even
with the artifact absent (the job later raises while hashing it, after
the cache record), and a nonzero exit, a timeout or an execution error is
a failed attempt even when a plausible artifact exists, in which case the
engine loop continues with the next engine. -/
theorem claimC7 :
    (∀ (eng : String) (tpl b : Bool) (code : Nat) (o : String),
      (try_pandoc_pdf eng tpl ⟨.exited code o, b⟩).1 = (code == 0) ∧
      (try_pandoc_pdf eng tpl ⟨.timedOut o, b⟩).1 = false ∧
      (try_pandoc_pdf eng tpl ⟨.execError o, b⟩).1 = false ∧
      (try_docx ⟨.exited code o, b⟩).1 = (code == 0) ∧
      (try_docx ⟨.timedOut o, b⟩).1 = false ∧
      (try_docx ⟨.execError o, b⟩).1 = false) ∧
    (∀ (whichOk : String → Bool) (procs : Nat → AttemptOutcome) (tpl : Bool)
        (eng : String) (rest : List String) (i c : Nat) (o : String),
      whichOk eng = true → procs i = ⟨.exited (c + 1) o, true⟩ →
      (engineChain whichOk procs tpl (eng :: rest) i).success
        = (engineChain whichOk procs tpl rest (i + 1)).success) := by
  constructor
  · exact fun eng tpl b code o => ⟨rfl, rfl, rfl, rfl, rfl, rfl⟩
  · intro whichOk procs tpl eng rest i c o heng hproc
    conv_lhs => rw [engineChain]
    rw [heng]
    simp [hproc, try_pandoc_pdf, run]

/-- C7 witness. -/
theorem claimC7_witness :
    (try_pandoc_pdf "xelatex" true ⟨.exited 0 "x", false⟩).1 = (0 == 0) ∧
    (engineChain (fun _ => true) (fun _ => ⟨.exited 1 "boom", true⟩) false ["xelatex"] 0).success
      = (engineChain (fun _ => true) (fun _ => ⟨.exited 1 "boom", true⟩) false [] 1).success :=
  ⟨(claimC7.1 "xelatex" true false 0 "x").1,
   claimC7.2 (fun _ => true) (fun _ => ⟨.exited 1 "boom", true⟩) false "xelatex" [] 0 0 "boom"
     rfl rfl⟩

/-! ## C8 — timeouts are failed attempts, not fatal errors -/

/-- Every pandoc invocation exceeds the wall-clock timeout. -/
def envC8 : Env :=
  { baseEnv with
    whichOk := fun s => s == "xelatex"
    procs := fun _ => ⟨.timedOut "slow", false⟩ }

/-- C8: a timed-out renderer process is reported by `run` as a failed
attempt (no exception escapes the runner); the engine loop logs the
failed block and moves on to the next strategy; and a job whose every
invocation times out terminates normally with status FAIL rather than
aborting. -/
theorem claimC8 :
    (∀ o, run (.timedOut o) = (false, o ++ "\n[TIMEOUT]")) ∧
    (∀ (whichOk : String → Bool) (procs : Nat → AttemptOutcome) (tpl : Bool)
        (eng : String) (rest : List String) (i : Nat) (o : String) (b : Bool),
      whichOk eng = true → procs i = ⟨.timedOut o, b⟩ →
      engineChain whichOk procs tpl (eng :: rest) i =
        ⟨(engineChain whichOk procs tpl rest (i + 1)).nextIdx,
         ⟨some eng, tpl, false, o ++ "\n[TIMEOUT]"⟩
           :: (engineChain whichOk procs tpl rest (i + 1)).attempts,
         (engineChain whichOk procs tpl rest (i + 1)).success⟩) ∧
    (∀ env : Env, env.ensureDirsOk = true → skipCheck env = none →
      env.diskSpaceOk = true → (∀ j, ∃ o, (env.procs j).proc = .timedOut o) →
      (convert_one env).outcome = .ok (.FAIL, none)) := by
  refine ⟨fun o => rfl, engineChain_timeout_step, ?_⟩
  intro env hdirs hskip hdisk hall
  have hfail : ∀ j, (run (env.procs j).proc).1 = false := by
    intro j
    obtain ⟨o, ho⟩ := hall j
    rw [ho]
    rfl
  unfold convert_one
  dsimp only
  simp [hdirs, hskip, hdisk, strategyPhase_allfail env _ hfail]

/-- C8 witness. -/
theorem claimC8_witness :
    run (.timedOut "slow") = (false, "slow\n[TIMEOUT]") ∧
    engineChain (fun _ => true) (fun _ => ⟨.timedOut "slow", false⟩) false ["xelatex"] 0 =
      ⟨(engineChain (fun _ => true) (fun _ => ⟨.timedOut "slow", false⟩) false [] 1).nextIdx,
       ⟨some "xelatex", false, false, "slow\n[TIMEOUT]"⟩
         :: (engineChain (fun _ => true) (fun _ => ⟨.timedOut "slow", false⟩) false [] 1).attempts,
       (engineChain (fun _ => true) (fun _ => ⟨.timedOut "slow", false⟩) false [] 1).success⟩ ∧
    (convert_one envC8).outcome = .ok (.FAIL, none) :=
  ⟨claimC8.1 "slow",
   claimC8.2.1 (fun _ => true) (fun _ => ⟨.timedOut "slow", false⟩) false "xelatex" [] 0 "slow"
     false rfl rfl,
   claimC8.2.2 envC8 rfl rfl rfl (fun _ => ⟨"slow", rfl⟩)⟩

/-! ## C9 — metrics snapshots and aliasing -/

/-- Reading index `i` of a list right after setting it, when `i` is in
range. -/
theorem list_getD_set_self {α : Type} (l : List α) (i : Nat) (v d : α)
    (h : i < l.length) :
    (l.set i v).getD i d = v := by
  simp [List.getD, List.getElem?_set_self, h]

/-- The process-start metrics store: all counters zero, the nested
`engine_usage` dict allocated as heap cell 0. -/
def amInit : AgentMetrics := ⟨⟨0, 0, 0, 0, 0, 0, 0, 0, 0⟩, [⟨0, 0, 0, 0⟩]⟩

/-- C9 counterexample: after a snapshot is returned, a single
engine-usage bump changes what the snapshot's `engine_usage` entry
dereferences to — the snapshot is NOT detached from live state. -/
theorem claimC9_counterexample :
    readEngineUsage (amInit.bumpEngine "xelatex").heap (AgentMetrics.get_metrics amInit)
      ≠ readEngineUsage amInit.heap (AgentMetrics.get_metrics amInit) ∧
    readEngineUsage (amInit.bumpEngine "xelatex").heap (AgentMetrics.get_metrics amInit)
      = ⟨1, 0, 0, 0⟩ := by
  constructor
  · decide
  · rfl

/-- C9 (amended): the snapshot returned by `get_metrics` is the dict value
at snapshot time, so the scalar counters and gauges are detached — a
later scalar increment advances only the live store, leaving the
snapshot's number one behind — but the nested `engine_usage` dict is
shallow-copied by reference: an engine-usage bump performed after the
snapshot is visible through the snapshot, which dereferences exactly as a
fresh snapshot does. -/
theorem claimC9 :
    (∀ s : AgentMetrics,
      AgentMetrics.get_metrics s = s.data ∧
      (s.incFailed).data.files_failed_total
        = (AgentMetrics.get_metrics s).files_failed_total + 1 ∧
      (∀ v, (s.setQueueDepth v).data.queue_depth = v)) ∧
    (∀ (s : AgentMetrics) (e : String), s.data.engine_usage < s.heap.length →
      readEngineUsage (s.bumpEngine e).heap (AgentMetrics.get_metrics s)
        = (readEngineUsage s.heap (AgentMetrics.get_metrics s)).bump e ∧
      readEngineUsage (s.bumpEngine e).heap (AgentMetrics.get_metrics (s.bumpEngine e))
        = readEngineUsage (s.bumpEngine e).heap (AgentMetrics.get_metrics s)) := by
  constructor
  · exact fun s => ⟨rfl, rfl, fun v => rfl⟩
  · intro s e h
    constructor
    · unfold AgentMetrics.bumpEngine readEngineUsage AgentMetrics.get_metrics
      dsimp only
      exact list_getD_set_self _ _ _ _ h
    · rfl

/-- C9 witness. -/
theorem claimC9_witness :
    readEngineUsage (amInit.bumpEngine "xelatex").heap (AgentMetrics.get_metrics amInit)
      = (readEngineUsage amInit.heap (AgentMetrics.get_metrics amInit)).bump "xelatex" :=
  (claimC9.2 amInit "xelatex" (by decide)).1

/-! ## C10 — active_jobs balance -/

/-- C10: both per-file conversion entry points leave the `active_jobs`
gauge with net change zero: it is incremented on entry and decremented
exactly once on every exit path — skip, success, degraded success,
failure, or a propagating exception. -/
theorem claimC10 :
    (∀ env : Env, (convert_one env).metrics.active_jobs = env.metrics.active_jobs) ∧
    (∀ fenv : FileConvEnv, (convert_file fenv).1.active_jobs = fenv.metrics.active_jobs) := by
  constructor
  · intro env
    unfold convert_one
    dsimp only
    repeat' split
    all_goals
      simp [AMetrics.incActive, AMetrics.incSkipped, AMetrics.incFailed,
        strategyPhase_active]
  · intro fenv
    unfold convert_file convertFileExcept EMetrics.increment
    dsimp only
    omega
